import Mathlib

/-!
Shallow embedding of `ifuse-automount` (src/src/main.rs), a daemon that
watches USB hotplug events and mounts Apple devices via the external
`ifuse` / `fusermount` tools.

The embedding models:
- the device classifier `is_apple_device` with its constant tables,
- the device registry (`HashMap<DeviceAddr, String>` as an association
  list with overwrite-insert and remove),
- the external-tool gateway `ifuse_mount` / `ifuse_unmount`, where the
  child-process spawn outcome is an explicit input,
- `Handler::handle_device`, with every external interaction (tool
  availability probe, descriptor read, device open/reset, language and
  serial-number reads, directory creation, spawns) given as an explicit
  environment, and the gateway invocations and directory creations
  recorded in an effect log.
-/

deriving instance DecidableEq for Except

namespace IfuseAutomount

/-- `const APPLE_VENDOR_ID: u16 = 0x05AC;` (main.rs line 18). -/
def APPLE_VENDOR_ID : Nat := 0x05AC

/-- `const APPLE_PRODUCT_IDS: [u16; 25]` (main.rs lines 20-46). -/
def APPLE_PRODUCT_IDS : List Nat :=
  [0x1290, 0x1291, 0x1292, 0x1293, 0x1294, 0x1296, 0x1297, 0x1299,
   0x129a, 0x129c, 0x129d, 0x129e, 0x129f, 0x12a0, 0x12a1, 0x12a2,
   0x12a3, 0x12a4, 0x12a5, 0x12a6, 0x12a8, 0x12a9, 0x12aa, 0x12ab,
   0x12ac]

/-- `fn is_apple_device(vendor_id: u16, product_id: u16) -> bool`
(main.rs lines 236-239):
`APPLE_VENDOR_ID == vendor_id && APPLE_PRODUCT_IDS.contains(&product_id)`. -/
def is_apple_device (vendor_id product_id : Nat) : Bool :=
  APPLE_VENDOR_ID == vendor_id && APPLE_PRODUCT_IDS.contains product_id

/-- `struct DeviceAddr { bus: u8, addr: u8 }` (main.rs lines 86-90). -/
structure DeviceAddr where
  bus : Nat
  addr : Nat
deriving DecidableEq, Repr

/-- `enum Action { Mount, Unmount }` (main.rs lines 81-84). -/
inductive Action where
  | Mount
  | Unmount
deriving DecidableEq, Repr

/-- `enum Error` (main.rs lines 48-55). The `io::Error` and `rusb::Error`
payloads are modelled by their message strings. -/
inductive Error where
  | Io (msg : String)
  | Usb (msg : String)
  | CantMount (msg : String)
  | IfuseNotInstalled
  | DeviceNotFound
deriving DecidableEq, Repr

/-- The `devices: HashMap<DeviceAddr, String>` field of `Handler`
(main.rs line 96), modelled as an association list from slot to serial
number. -/
abbrev Registry := List (DeviceAddr × String)

namespace Registry

/-- Lookup of a slot's stored serial number (`HashMap` lookup). -/
def find : Registry → DeviceAddr → Option String
  | [], _ => none
  | (a, sn) :: rest, s => if a = s then some sn else find rest s

/-- Drop every entry stored under the given slot. -/
def eraseKey : Registry → DeviceAddr → Registry
  | [], _ => []
  | (a, sn) :: rest, s =>
    if a = s then eraseKey rest s else (a, sn) :: eraseKey rest s

/-- `self.devices.insert(addr, serial_number)` (main.rs line 191):
insert-or-overwrite. -/
def record (reg : Registry) (slot : DeviceAddr) (sn : String) : Registry :=
  (slot, sn) :: eraseKey reg slot

/-- `self.devices.remove(&addr)` (main.rs line 195): removes the mapping
and returns the stored value when present. -/
def release (reg : Registry) (slot : DeviceAddr) :
    Option String × Registry :=
  (find reg slot, eraseKey reg slot)

/-- A slot is tracked when the registry holds a mapping for it. -/
def tracks (reg : Registry) (slot : DeviceAddr) : Bool :=
  (find reg slot).isSome

end Registry

/-- The vendor/product fields of `rusb::DeviceDescriptor` that
`handle_device` reads (main.rs lines 136-137). -/
structure Descriptor where
  vendorId : Nat
  productId : Nat
deriving DecidableEq, Repr

/-- A `rusb::Device`: its bus number and address, plus the outcome of
`device.device_descriptor()` (which can fail with a `rusb::Error`,
modelled by its message). -/
structure UsbDevice where
  bus : Nat
  addr : Nat
  descriptorResult : Except String Descriptor
deriving DecidableEq, Repr

/-- Outcome of a completed child process: whether the exit status was
success, and the captured stderr bytes (as a string). -/
structure CmdOutput where
  success : Bool
  stderr : String
deriving DecidableEq, Repr

/-- A spawned command line: program name and argument list. -/
structure CmdSpec where
  program : String
  args : List String
deriving DecidableEq, Repr

/-- `fn ifuse_mount<P>(path: P)` (main.rs lines 250-268): runs
`ifuse <path>`; an `io::Error` from `.output()` propagates as `Error::Io`,
a non-zero exit status yields `Error::CantMount(stderr)`. The spawn
outcome is an explicit input; the returned pair is the command line that
was spawned together with the function's `Result`. -/
def ifuse_mount (path : String) (spawn : Except String CmdOutput) :
    CmdSpec × Except Error Unit :=
  (⟨"ifuse", [path]⟩,
   match spawn with
   | .error e => .error (.Io e)
   | .ok output =>
     if output.success then .ok ()
     else .error (.CantMount output.stderr))

/-- `fn ifuse_unmount<P>(path: P)` (main.rs lines 270-289): runs
`fusermount -u <path>`; same exit-code contract as `ifuse_mount`. -/
def ifuse_unmount (path : String) (spawn : Except String CmdOutput) :
    CmdSpec × Except Error Unit :=
  (⟨"fusermount", ["-u", path]⟩,
   match spawn with
   | .error e => .error (.Io e)
   | .ok output =>
     if output.success then .ok ()
     else .error (.CantMount output.stderr))

/-- `self.base_path.join(&serial_number)` (main.rs lines 178, 197). -/
def pathJoin (base serial : String) : String :=
  base ++ "/" ++ serial

/-- Outcomes of all external interactions one `handle_device` call may
perform, in program order: the `is_ifuse_installed()` probe, the device
open/reset, the language and serial-number reads (each may fail with a
`rusb::Error`, modelled by its message), `fs::create_dir_all`, and the
spawn outcomes of the `ifuse` and `fusermount` child processes. -/
structure Env where
  ifuseInstalled : Bool
  openResult : Except String Unit
  resetResult : Except String Unit
  languagesResult : Except String (List Nat)
  serialResult : Except String String
  createDirResult : Except String Unit
  mountSpawn : Except String CmdOutput
  unmountSpawn : Except String CmdOutput
deriving DecidableEq, Repr

/-- Side effects performed by one `handle_device` call: the gateway
command lines spawned via `ifuse_mount` / `ifuse_unmount`, and the
directories passed to `fs::create_dir_all`. -/
structure EffectLog where
  mountCalls : List CmdSpec
  unmountCalls : List CmdSpec
  dirsCreated : List String
deriving DecidableEq, Repr

/-- The empty effect log. -/
def EffectLog.empty : EffectLog := ⟨[], [], []⟩

/-- Result of one `handle_device` call: the returned `Result<(), Error>`,
the handler's `devices` registry afterward, and the effect log. -/
structure HandleResult where
  result : Except Error Unit
  devices : Registry
  log : EffectLog
deriving DecidableEq, Repr

/-- `Handler::handle_device` (main.rs lines 121-207). The handler state
is its `base_path` and `devices` registry; the `rusb` and process
interactions are read from `env`. The 500 ms settle sleep and the
`println!` progress messages have no modelled effect. -/
def handle_device (env : Env) (base_path : String) (devices : Registry)
    (device : UsbDevice) (action : Action) : HandleResult :=
  -- `if !is_ifuse_installed() { return Err(Error::IfuseNotInstalled); }`
  if !env.ifuseInstalled then
    ⟨.error .IfuseNotInstalled, devices, .empty⟩
  else
    -- `let descriptor = device.device_descriptor()?;`
    match device.descriptorResult with
    | .error e => ⟨.error (.Usb e), devices, .empty⟩
    | .ok descriptor =>
      -- `if !is_apple_device(vendor_id, product_id) { return Ok(()); }`
      if !is_apple_device descriptor.vendorId descriptor.productId then
        ⟨.ok (), devices, .empty⟩
      else
        let addr : DeviceAddr := ⟨device.bus, device.addr⟩
        match action with
        | .Mount =>
          -- `let handle = device.open()?;`
          match env.openResult with
          | .error e => ⟨.error (.Usb e), devices, .empty⟩
          | .ok _ =>
            -- `handle.reset()?;`
            match env.resetResult with
            | .error e => ⟨.error (.Usb e), devices, .empty⟩
            | .ok _ =>
              -- `let languages = handle.read_languages(TIMEOUT)?;`
              match env.languagesResult with
              | .error e => ⟨.error (.Usb e), devices, .empty⟩
              | .ok languages =>
                if languages.isEmpty then
                  ⟨.error (.CantMount "Languages empty"), devices, .empty⟩
                else
                  -- `handle.read_serial_number_string(..)?`
                  match env.serialResult with
                  | .error e => ⟨.error (.Usb e), devices, .empty⟩
                  | .ok serial_number =>
                    let path := pathJoin base_path serial_number
                    -- `fs::create_dir_all(&path)?;`
                    match env.createDirResult with
                    | .error e =>
                      ⟨.error (.Io e), devices, ⟨[], [], [path]⟩⟩
                    | .ok _ =>
                      -- `ifuse_mount(path)?;`
                      let m := ifuse_mount path env.mountSpawn
                      match m.2 with
                      | .error e =>
                        ⟨.error e, devices, ⟨[m.1], [], [path]⟩⟩
                      | .ok _ =>
                        -- `self.devices.insert(addr, serial_number);`
                        ⟨.ok (), Registry.record devices addr serial_number,
                         ⟨[m.1], [], [path]⟩⟩
        | .Unmount =>
          -- `match self.devices.remove(&addr)`
          match Registry.release devices addr with
          | (some serial_number, devices2) =>
            let path := pathJoin base_path serial_number
            -- `ifuse_unmount(path)?;`
            let u := ifuse_unmount path env.unmountSpawn
            match u.2 with
            | .error e => ⟨.error e, devices2, ⟨[], [u.1], []⟩⟩
            | .ok _ => ⟨.ok (), devices2, ⟨[], [u.1], []⟩⟩
          | (none, _) => ⟨.error .DeviceNotFound, devices, .empty⟩

/-- An abstract `record`/`release` call on the registry, for stating the
registry invariant over arbitrary call sequences. -/
inductive RegOp where
  | record (slot : DeviceAddr) (sn : String)
  | release (slot : DeviceAddr)
deriving DecidableEq, Repr

/-- The slot an operation acts on. -/
def RegOp.slot : RegOp → DeviceAddr
  | .record s _ => s
  | .release s => s

/-- Apply one abstract call to the registry. -/
def applyOp (reg : Registry) : RegOp → Registry
  | .record s sn => Registry.record reg s sn
  | .release s => (Registry.release reg s).2

/-- Apply a sequence of calls left to right. -/
def applyOps (reg : Registry) : List RegOp → Registry
  | [] => reg
  | op :: ops => applyOps (applyOp reg op) ops

/-- The most recent operation in the sequence acting on the given slot,
when one exists. -/
def lastOpOn (s : DeviceAddr) : List RegOp → Option RegOp
  | [] => none
  | op :: ops =>
    match lastOpOn s ops with
    | some o => some o
    | none => if op.slot = s then some op else none

/-- The slot's most recent operation is a `record` with no subsequent
`release` of that slot. -/
def lastIsLiveRecord (ops : List RegOp) (s : DeviceAddr) : Bool :=
  match lastOpOn s ops with
  | some (.record _ _) => true
  | _ => false

theorem Registry.find_eraseKey (reg : Registry) (t s : DeviceAddr) :
    Registry.find (Registry.eraseKey reg t) s =
      if t = s then none else Registry.find reg s := by
  induction reg with
  | nil => simp [Registry.eraseKey, Registry.find]
  | cons p rest ih =>
    obtain ⟨a, sn⟩ := p
    by_cases hat : a = t <;> by_cases hts : t = s <;>
      simp_all [Registry.eraseKey, Registry.find]

theorem Registry.find_record (reg : Registry) (t s : DeviceAddr)
    (sn : String) :
    Registry.find (Registry.record reg t sn) s =
      if t = s then some sn else Registry.find reg s := by
  by_cases h : t = s
  · subst h
    simp [Registry.record, Registry.find]
  · simp [Registry.record, Registry.find, h, Registry.find_eraseKey]

theorem find_applyOps (ops : List RegOp) (reg : Registry)
    (s : DeviceAddr) :
    Registry.find (applyOps reg ops) s =
      match lastOpOn s ops with
      | some (.record _ sn) => some sn
      | some (.release _) => none
      | none => Registry.find reg s := by
  induction ops generalizing reg with
  | nil => simp [applyOps, lastOpOn]
  | cons op ops ih =>
    rw [applyOps, ih]
    cases hlast : lastOpOn s ops with
    | some o =>
      simp only [lastOpOn, hlast]
      cases o <;> rfl
    | none =>
      simp only [lastOpOn, hlast]
      cases op with
      | record t sn =>
        by_cases h : t = s <;>
          simp [RegOp.slot, h, applyOp, Registry.find_record]
      | release t =>
        by_cases h : t = s <;>
          simp [RegOp.slot, h, applyOp, Registry.release,
            Registry.find_eraseKey]

/-- Claim C1: for every finite sequence of `record`/`release` operations
on an initially empty registry, the set of tracked slots afterward equals
exactly the set of slots whose most recent operation in the sequence was
a `record` with no subsequent `release`; and a `record` for an
already-tracked slot silently replaces the stored serial number. -/
theorem c1_registry_invariant :
    (∀ (ops : List RegOp) (s : DeviceAddr),
      Registry.tracks (applyOps [] ops) s = lastIsLiveRecord ops s) ∧
    (∀ (reg : Registry) (s : DeviceAddr) (sn : String),
      Registry.find (Registry.record reg s sn) s = some sn) := by
  constructor
  · intro ops s
    rw [Registry.tracks, find_applyOps, lastIsLiveRecord]
    cases hlast : lastOpOn s ops with
    | some o =>
      cases o <;> simp
    | none => simp [Registry.find]
  · intro reg s sn
    simp [Registry.find_record]

theorem ifuse_mount_cmd (path : String) (spawn : Except String CmdOutput) :
    (ifuse_mount path spawn).1 = ⟨"ifuse", [path]⟩ := rfl

theorem ifuse_unmount_cmd (path : String)
    (spawn : Except String CmdOutput) :
    (ifuse_unmount path spawn).1 = ⟨"fusermount", ["-u", path]⟩ := rfl

/-- Claim C2: `is_apple_device` returns true iff the vendor identifier is
`0x05AC` and the product identifier belongs to `APPLE_PRODUCT_IDS`; in
particular `(0x05AC, 0x12A8)` is managed while `(0x05AC, 0x0000)` and
`(0x0000, 0x12A8)` are not. -/
theorem c2_classifier :
    (∀ vendor_id product_id : Nat,
      is_apple_device vendor_id product_id = true ↔
        (vendor_id = 0x05AC ∧ product_id ∈ APPLE_PRODUCT_IDS)) ∧
    is_apple_device 0x05AC 0x12A8 = true ∧
    is_apple_device 0x05AC 0x0000 = false ∧
    is_apple_device 0x0000 0x12A8 = false := by
  refine ⟨?_, by decide, by decide, by decide⟩
  intro vendor_id product_id
  rw [is_apple_device, Bool.and_eq_true, beq_iff_eq, List.elem_iff,
    APPLE_VENDOR_ID]
  exact and_congr_left fun _ => eq_comm

/-- Claim C8: an attach event processed while the availability probe
reports the tool unavailable yields the reported `IfuseNotInstalled`
condition, no gateway mount call, and an unchanged registry. -/
theorem c8_tool_unavailable_attach (env : Env) (base_path : String)
    (reg : Registry) (dev : UsbDevice)
    (h : env.ifuseInstalled = false) :
    handle_device env base_path reg dev .Mount =
      ⟨.error .IfuseNotInstalled, reg, .empty⟩ := by
  simp [handle_device, h]

theorem c8_tool_unavailable_attach_witness :
    handle_device
        ⟨false, .ok (), .ok (), .ok [1033], .ok "abc", .ok (),
         .ok ⟨true, ""⟩, .ok ⟨true, ""⟩⟩
        "/run" [] ⟨1, 4, .ok ⟨0x05AC, 0x12A8⟩⟩ .Mount =
      ⟨.error .IfuseNotInstalled, [], .empty⟩ :=
  c8_tool_unavailable_attach _ _ _ _ rfl

/-- Claim C10: a departure event processed while the availability probe
reports the tool unavailable returns the `IfuseNotInstalled` error before
consulting the registry, so a tracked slot whose device has departed
remains tracked afterward. -/
theorem c10_tool_unavailable_departure (env : Env) (base_path : String)
    (reg : Registry) (dev : UsbDevice)
    (h : env.ifuseInstalled = false) :
    handle_device env base_path reg dev .Unmount =
      ⟨.error .IfuseNotInstalled, reg, .empty⟩ ∧
    (∀ (s : DeviceAddr) (sn : String), Registry.find reg s = some sn →
      Registry.find (handle_device env base_path reg dev .Unmount).devices
        s = some sn) := by
  have key : handle_device env base_path reg dev .Unmount =
      ⟨.error .IfuseNotInstalled, reg, .empty⟩ := by
    simp [handle_device, h]
  exact ⟨key, fun s sn hs => by rw [key]; exact hs⟩

theorem c10_tool_unavailable_departure_witness :
    Registry.find
      (handle_device
        ⟨false, .ok (), .ok (), .ok [1033], .ok "abc", .ok (),
         .ok ⟨true, ""⟩, .ok ⟨true, ""⟩⟩
        "/run" [(⟨1, 4⟩, "abc")] ⟨1, 4, .ok ⟨0x05AC, 0x12A8⟩⟩
        .Unmount).devices ⟨1, 4⟩ = some "abc" :=
  (c10_tool_unavailable_departure _ _ _ _ rfl).2 ⟨1, 4⟩ "abc" (by decide)

/-- Claim C7: an attach event for a device outside the managed family
(with the tool installed and the descriptor readable) returns success
with no gateway call, no directory creation, and an unchanged registry. -/
theorem c7_non_managed_attach (env : Env) (base_path : String)
    (reg : Registry) (dev : UsbDevice) (descriptor : Descriptor)
    (hinst : env.ifuseInstalled = true)
    (hdesc : dev.descriptorResult = .ok descriptor)
    (hnm : is_apple_device descriptor.vendorId descriptor.productId
      = false) :
    handle_device env base_path reg dev .Mount =
      ⟨.ok (), reg, .empty⟩ := by
  simp [handle_device, hinst, hdesc, hnm]

theorem c7_non_managed_attach_witness :
    handle_device
        ⟨true, .ok (), .ok (), .ok [1033], .ok "abc", .ok (),
         .ok ⟨true, ""⟩, .ok ⟨true, ""⟩⟩
        "/run" [] ⟨1, 4, .ok ⟨0x1234, 0x5678⟩⟩ .Mount =
      ⟨.ok (), [], .empty⟩ :=
  c7_non_managed_attach _ _ _ _ ⟨0x1234, 0x5678⟩ rfl rfl (by decide)

/-- Claim C6: a departure event (tool installed, descriptor readable,
managed device) for a slot not tracked in the registry yields the
reported `DeviceNotFound` condition, no gateway unmount call, and an
unchanged registry. -/
theorem c6_unmount_unknown_slot (env : Env) (base_path : String)
    (reg : Registry) (dev : UsbDevice) (descriptor : Descriptor)
    (hinst : env.ifuseInstalled = true)
    (hdesc : dev.descriptorResult = .ok descriptor)
    (hm : is_apple_device descriptor.vendorId descriptor.productId
      = true)
    (hnone : Registry.find reg ⟨dev.bus, dev.addr⟩ = none) :
    handle_device env base_path reg dev .Unmount =
      ⟨.error .DeviceNotFound, reg, .empty⟩ := by
  simp [handle_device, hinst, hdesc, hm, Registry.release, hnone]

theorem c6_unmount_unknown_slot_witness :
    handle_device
        ⟨true, .ok (), .ok (), .ok [1033], .ok "abc", .ok (),
         .ok ⟨true, ""⟩, .ok ⟨true, ""⟩⟩
        "/run" [(⟨2, 7⟩, "zzz")] ⟨1, 4, .ok ⟨0x05AC, 0x12A8⟩⟩ .Unmount =
      ⟨.error .DeviceNotFound, [(⟨2, 7⟩, "zzz")], .empty⟩ :=
  c6_unmount_unknown_slot _ _ _ _ ⟨0x05AC, 0x12A8⟩ rfl rfl (by decide)
    (by decide)

/-- Claim C5: a departure event (tool installed, descriptor readable,
managed device) for a tracked slot removes the slot, invokes the unmount
gateway on the directory derived from the stored serial number, and
returns the gateway outcome; the slot is absent from the registry
afterward whether that outcome is success or failure. -/
theorem c5_unmount_tracked (env : Env) (base_path : String)
    (reg : Registry) (dev : UsbDevice) (descriptor : Descriptor)
    (sn : String)
    (hinst : env.ifuseInstalled = true)
    (hdesc : dev.descriptorResult = .ok descriptor)
    (hm : is_apple_device descriptor.vendorId descriptor.productId
      = true)
    (hsome : Registry.find reg ⟨dev.bus, dev.addr⟩ = some sn) :
    handle_device env base_path reg dev .Unmount =
      ⟨(ifuse_unmount (pathJoin base_path sn) env.unmountSpawn).2,
       Registry.eraseKey reg ⟨dev.bus, dev.addr⟩,
       ⟨[], [⟨"fusermount", ["-u", pathJoin base_path sn]⟩], []⟩⟩ ∧
    Registry.find
      (handle_device env base_path reg dev .Unmount).devices
      ⟨dev.bus, dev.addr⟩ = none := by
  have key : handle_device env base_path reg dev .Unmount =
      ⟨(ifuse_unmount (pathJoin base_path sn) env.unmountSpawn).2,
       Registry.eraseKey reg ⟨dev.bus, dev.addr⟩,
       ⟨[], [⟨"fusermount", ["-u", pathJoin base_path sn]⟩], []⟩⟩ := by
    cases hu : (ifuse_unmount (pathJoin base_path sn) env.unmountSpawn).2
      with
    | error e =>
      simp [handle_device, hinst, hdesc, hm, Registry.release, hsome, hu,
        ifuse_unmount_cmd]
    | ok u =>
      cases u
      simp [handle_device, hinst, hdesc, hm, Registry.release, hsome, hu,
        ifuse_unmount_cmd]
  refine ⟨key, ?_⟩
  rw [key]
  simp [Registry.find_eraseKey]

theorem c5_unmount_tracked_witness :
    handle_device
        ⟨true, .ok (), .ok (), .ok [1033], .ok "abc", .ok (),
         .ok ⟨true, ""⟩, .ok ⟨false, "not mounted"⟩⟩
        "/run" [(⟨1, 4⟩, "abc")] ⟨1, 4, .ok ⟨0x05AC, 0x12A8⟩⟩ .Unmount =
      ⟨(ifuse_unmount (pathJoin "/run" "abc")
          (.ok ⟨false, "not mounted"⟩)).2,
       Registry.eraseKey [(⟨1, 4⟩, "abc")] ⟨1, 4⟩,
       ⟨[], [⟨"fusermount", ["-u", pathJoin "/run" "abc"]⟩], []⟩⟩ ∧
    Registry.find
      (handle_device
        ⟨true, .ok (), .ok (), .ok [1033], .ok "abc", .ok (),
         .ok ⟨true, ""⟩, .ok ⟨false, "not mounted"⟩⟩
        "/run" [(⟨1, 4⟩, "abc")] ⟨1, 4, .ok ⟨0x05AC, 0x12A8⟩⟩
        .Unmount).devices ⟨1, 4⟩ = none :=
  c5_unmount_tracked _ _ _ _ ⟨0x05AC, 0x12A8⟩ "abc" rfl rfl (by decide)
    (by decide)

/-- Claim C4: an attach event in which the mount gateway invocation fails
(everything earlier succeeding) returns that error, performs exactly one
gateway mount invocation with no retry, and leaves the registry
unchanged. -/
theorem c4_mount_failure (env : Env) (base_path : String)
    (reg : Registry) (dev : UsbDevice) (descriptor : Descriptor)
    (languages : List Nat) (serial_number : String) (e : Error)
    (hinst : env.ifuseInstalled = true)
    (hdesc : dev.descriptorResult = .ok descriptor)
    (hm : is_apple_device descriptor.vendorId descriptor.productId
      = true)
    (hopen : env.openResult = .ok ())
    (hreset : env.resetResult = .ok ())
    (hlang : env.languagesResult = .ok languages)
    (hne : languages.isEmpty = false)
    (hser : env.serialResult = .ok serial_number)
    (hdir : env.createDirResult = .ok ())
    (hfail : (ifuse_mount (pathJoin base_path serial_number)
      env.mountSpawn).2 = .error e) :
    handle_device env base_path reg dev .Mount =
      ⟨.error e, reg,
       ⟨[⟨"ifuse", [pathJoin base_path serial_number]⟩], [],
        [pathJoin base_path serial_number]⟩⟩ := by
  simp [handle_device, hinst, hdesc, hm, hopen, hreset, hlang, hne, hser,
    hdir, hfail, ifuse_mount_cmd]

theorem c4_mount_failure_witness :
    handle_device
        ⟨true, .ok (), .ok (), .ok [1033], .ok "abc", .ok (),
         .ok ⟨false, "boom"⟩, .ok ⟨true, ""⟩⟩
        "/run" [(⟨2, 7⟩, "zzz")] ⟨1, 4, .ok ⟨0x05AC, 0x12A8⟩⟩ .Mount =
      ⟨.error (.CantMount "boom"), [(⟨2, 7⟩, "zzz")],
       ⟨[⟨"ifuse", [pathJoin "/run" "abc"]⟩], [],
        [pathJoin "/run" "abc"]⟩⟩ :=
  c4_mount_failure _ _ _ _ ⟨0x05AC, 0x12A8⟩ [1033] "abc"
    (.CantMount "boom") rfl rfl (by decide) rfl rfl rfl rfl rfl rfl rfl

/-- Claim C3: an attach event with every step succeeding, followed by a
departure event for the same slot, performs exactly one gateway mount
invocation (during the attach) and exactly one gateway unmount invocation
(during the departure), and leaves the registry empty. -/
theorem c3_round_trip (env1 env2 : Env) (base_path : String)
    (dev : UsbDevice) (descriptor : Descriptor) (languages : List Nat)
    (serial_number : String)
    (h1 : env1.ifuseInstalled = true)
    (hdesc : dev.descriptorResult = .ok descriptor)
    (hm : is_apple_device descriptor.vendorId descriptor.productId
      = true)
    (hopen : env1.openResult = .ok ())
    (hreset : env1.resetResult = .ok ())
    (hlang : env1.languagesResult = .ok languages)
    (hne : languages.isEmpty = false)
    (hser : env1.serialResult = .ok serial_number)
    (hdir : env1.createDirResult = .ok ())
    (hmnt : (ifuse_mount (pathJoin base_path serial_number)
      env1.mountSpawn).2 = .ok ())
    (h2 : env2.ifuseInstalled = true)
    (humnt : (ifuse_unmount (pathJoin base_path serial_number)
      env2.unmountSpawn).2 = .ok ()) :
    handle_device env1 base_path [] dev .Mount =
      ⟨.ok (), [(⟨dev.bus, dev.addr⟩, serial_number)],
       ⟨[⟨"ifuse", [pathJoin base_path serial_number]⟩], [],
        [pathJoin base_path serial_number]⟩⟩ ∧
    handle_device env2 base_path
        (handle_device env1 base_path [] dev .Mount).devices dev
        .Unmount =
      ⟨.ok (), [],
       ⟨[], [⟨"fusermount", ["-u", pathJoin base_path serial_number]⟩],
        []⟩⟩ := by
  have hmount : handle_device env1 base_path [] dev .Mount =
      ⟨.ok (), [(⟨dev.bus, dev.addr⟩, serial_number)],
       ⟨[⟨"ifuse", [pathJoin base_path serial_number]⟩], [],
        [pathJoin base_path serial_number]⟩⟩ := by
    simp [handle_device, h1, hdesc, hm, hopen, hreset, hlang, hne, hser,
      hdir, hmnt, ifuse_mount_cmd, Registry.record, Registry.eraseKey]
  refine ⟨hmount, ?_⟩
  rw [hmount]
  simp [handle_device, h2, hdesc, hm, Registry.release, Registry.find,
    Registry.eraseKey, humnt, ifuse_unmount_cmd]

theorem c3_round_trip_witness :
    handle_device
        ⟨true, .ok (), .ok (), .ok [1033], .ok "abc", .ok (),
         .ok ⟨true, ""⟩, .ok ⟨true, ""⟩⟩
        "/run" [] ⟨1, 4, .ok ⟨0x05AC, 0x12A8⟩⟩ .Mount =
      ⟨.ok (), [(⟨1, 4⟩, "abc")],
       ⟨[⟨"ifuse", [pathJoin "/run" "abc"]⟩], [],
        [pathJoin "/run" "abc"]⟩⟩ ∧
    handle_device
        ⟨true, .ok (), .ok (), .ok [1033], .ok "abc", .ok (),
         .ok ⟨true, ""⟩, .ok ⟨true, ""⟩⟩
        "/run"
        (handle_device
          ⟨true, .ok (), .ok (), .ok [1033], .ok "abc", .ok (),
           .ok ⟨true, ""⟩, .ok ⟨true, ""⟩⟩
          "/run" [] ⟨1, 4, .ok ⟨0x05AC, 0x12A8⟩⟩ .Mount).devices
        ⟨1, 4, .ok ⟨0x05AC, 0x12A8⟩⟩ .Unmount =
      ⟨.ok (), [],
       ⟨[], [⟨"fusermount", ["-u", pathJoin "/run" "abc"]⟩], []⟩⟩ :=
  c3_round_trip _ _ _ _ ⟨0x05AC, 0x12A8⟩ [1033] "abc" rfl rfl (by decide)
    rfl rfl rfl rfl rfl rfl rfl rfl rfl

/-- Claim C9: the mount gateway spawns the mount tool with the target
directory as its sole positional argument, the unmount gateway spawns the
unmount tool with the `-u` flag and the target directory, each returns
success iff the child process exits with status zero, and on a non-zero
exit each returns an error carrying the captured stderr text. -/
theorem c9_gateway_contract (path : String) (out : CmdOutput)
    (spawn : Except String CmdOutput) :
    (ifuse_mount path spawn).1 = ⟨"ifuse", [path]⟩ ∧
    (ifuse_unmount path spawn).1 = ⟨"fusermount", ["-u", path]⟩ ∧
    ((ifuse_mount path (.ok out)).2 = .ok () ↔ out.success = true) ∧
    ((ifuse_unmount path (.ok out)).2 = .ok () ↔ out.success = true) ∧
    (out.success = false →
      (ifuse_mount path (.ok out)).2 = .error (.CantMount out.stderr)) ∧
    (out.success = false →
      (ifuse_unmount path (.ok out)).2
        = .error (.CantMount out.stderr)) := by
  refine ⟨rfl, rfl, ?_, ?_, ?_, ?_⟩ <;>
    cases hout : out.success <;>
      simp [ifuse_mount, ifuse_unmount, hout]

theorem c9_gateway_contract_witness :
    (ifuse_mount "/run/abc" (.ok ⟨false, "boom"⟩)).2 =
      .error (.CantMount "boom") ∧
    (ifuse_unmount "/run/abc" (.ok ⟨false, "boom"⟩)).2 =
      .error (.CantMount "boom") :=
  ⟨(c9_gateway_contract "/run/abc" ⟨false, "boom"⟩
      (.ok ⟨false, "boom"⟩)).2.2.2.2.1 rfl,
   (c9_gateway_contract "/run/abc" ⟨false, "boom"⟩
      (.ok ⟨false, "boom"⟩)).2.2.2.2.2 rfl⟩

end IfuseAutomount
